import Mathlib

/-!
Shallow embedding of the loan-origination server's core logic
(`src/server.py`): the report normalizer `parse_gst_report` and the
eligibility decision engine `calculate_eligibility`.

Python numbers are modelled as exact rationals (`ℚ`); the input dict
`business_data : Dict[str, Any]` is modelled as a structure of `Option`
fields, one per key the code (or the documented request shape) mentions,
with `Option.getD` playing the role of `dict.get(key, default)`.
String reasons are modelled by an inductive tag carrying the formatted
amount where the source interpolates one; the `assessed_at` /
`parsed_at` timestamps are omitted (wall-clock, outside the embedding).
-/

/-- Decision values produced by `calculate_eligibility`:
"APPROVED", "CONDITIONAL", "DECLINED". -/
inductive Decision where
  | APPROVED
  | CONDITIONAL
  | DECLINED
deriving DecidableEq, Repr

/-- Risk-rating strings produced by `calculate_eligibility`:
"LOW", "LOW-MEDIUM", "MEDIUM", "HIGH". -/
inductive RiskRating where
  | LOW
  | LOWMEDIUM
  | MEDIUM
  | HIGH
deriving DecidableEq, Repr

/-- The reason strings of `calculate_eligibility`, as tags; the
CONDITIONAL branch interpolates `max_eligible` into its message, so the
tag carries it. -/
inductive Reason where
  | DtiTooHigh
  | ExceedsMaxEligible (cap : ℚ)
  | CreditScoreTooLow
  | AllCriteriaMet
deriving DecidableEq, Repr

/-- The `business_data` dict passed to `calculate_eligibility`. Every
key is optional (`dict.get` with a default). `requested_amount` is the
key of the documented request shape; the code itself reads
`loan_amount`. `collateral_available` and `filing_compliance_score`
appear in the documented shape and are never read by the code. -/
structure BusinessData where
  annual_turnover : Option ℚ := none
  existing_debt : Option ℚ := none
  loan_amount : Option ℚ := none
  requested_amount : Option ℚ := none
  credit_score_numeric : Option ℚ := none
  collateral_available : Option Bool := none
  filing_compliance_score : Option ℚ := none

/-- The result dict of `calculate_eligibility` (minus the `assessed_at`
timestamp). -/
structure EligibilityResult where
  decision : Decision
  reason : Reason
  approved_amount : ℚ
  max_eligible : ℚ
  risk_rating : RiskRating
  approval_probability : ℚ
  dti_ratio : ℚ
  credit_score : ℚ
deriving DecidableEq, Repr

/-- Python's `round(x, 3)` on the exact value: round to the nearest
thousandth (ties do not arise in any statement below). -/
def roundTo3 (q : ℚ) : ℚ := (round (q * 1000) : ℤ) / 1000

/-- `calculate_eligibility` from `src/server.py` lines 342-391,
field for field. -/
def calculate_eligibility (business_data : BusinessData) : EligibilityResult :=
  let annual_turnover := business_data.annual_turnover.getD 0
  let existing_debt := business_data.existing_debt.getD 0
  let requested_amount := business_data.loan_amount.getD 0
  let credit_score := business_data.credit_score_numeric.getD 750
  let dti_ratio : ℚ := if annual_turnover > 0 then existing_debt / annual_turnover else 1
  let max_eligible := annual_turnover * 0.3
  let risk_rating :=
    if credit_score ≥ 750 then RiskRating.LOW
    else if credit_score ≥ 650 then RiskRating.LOWMEDIUM
    else if credit_score ≥ 550 then RiskRating.MEDIUM
    else RiskRating.HIGH
  let approval_probability : ℚ :=
    if credit_score ≥ 750 then 0.9
    else if credit_score ≥ 650 then 0.75
    else if credit_score ≥ 550 then 0.6
    else 0.3
  let decision :=
    if dti_ratio > 0.4 then Decision.DECLINED
    else if requested_amount > max_eligible then Decision.CONDITIONAL
    else if credit_score < 550 then Decision.DECLINED
    else Decision.APPROVED
  let reason :=
    if dti_ratio > 0.4 then Reason.DtiTooHigh
    else if requested_amount > max_eligible then Reason.ExceedsMaxEligible max_eligible
    else if credit_score < 550 then Reason.CreditScoreTooLow
    else Reason.AllCriteriaMet
  { decision := decision
    reason := reason
    approved_amount := if decision ≠ Decision.DECLINED then min requested_amount max_eligible else 0
    max_eligible := max_eligible
    risk_rating := risk_rating
    approval_probability := approval_probability
    dti_ratio := roundTo3 dti_ratio
    credit_score := credit_score }

/-- The `report` dict passed to `parse_gst_report`; every key optional. -/
structure GstReport where
  business_name : Option String := none
  gst_number : Option String := none
  pan_number : Option String := none
  annual_turnover : Option ℚ := none
  filing_compliance : Option ℚ := none
  credit_score : Option String := none
  existing_loans : Option ℚ := none
  constitution : Option String := none
  address : Option String := none

/-- The dict returned by `parse_gst_report` (minus the `parsed_at`
timestamp). -/
structure ParsedReport where
  business_name : String
  gst_number : String
  pan_number : String
  annual_turnover : ℚ
  filing_compliance : ℚ
  credit_score_text : String
  credit_score_numeric : ℚ
  existing_debt : ℚ
  constitution : String
  address : String
deriving DecidableEq

/-- The `credit_score_map` dict literal of `parse_gst_report`
(lines 318-324), as lookup by key: `CMR-1..CMR-5 ↦ 850,750,650,550,450`,
any other key absent. -/
def credit_score_map (grade : String) : Option ℚ :=
  if grade = "CMR-1" then some 850
  else if grade = "CMR-2" then some 750
  else if grade = "CMR-3" then some 650
  else if grade = "CMR-4" then some 550
  else if grade = "CMR-5" then some 450
  else none

/-- `parse_gst_report` from `src/server.py` lines 314-340, field for
field; `credit_score_map.get(report.get("credit_score", "CMR-2"), 750)`
becomes the lookup followed by `Option.getD 750`. -/
def parse_gst_report (report : GstReport) : ParsedReport :=
  { business_name := report.business_name.getD ""
    gst_number := report.gst_number.getD ""
    pan_number := report.pan_number.getD ""
    annual_turnover := report.annual_turnover.getD 0
    filing_compliance := report.filing_compliance.getD 0
    credit_score_text := report.credit_score.getD "CMR-2"
    credit_score_numeric := (credit_score_map (report.credit_score.getD "CMR-2")).getD 750
    existing_debt := report.existing_loans.getD 0
    constitution := report.constitution.getD ""
    address := report.address.getD "" }

/-! ### Views of the engine's local variables

Each definition below names one local of `calculate_eligibility`; the
lemmas after them state how each result field is computed and hold by
definitional unfolding, so every claim can be settled by case analysis
on the three gate conditions. -/

/-- `annual_turnover = business_data.get("annual_turnover", 0)`. -/
def turnoverOf (bd : BusinessData) : ℚ := bd.annual_turnover.getD 0

/-- `existing_debt = business_data.get("existing_debt", 0)`. -/
def debtOf (bd : BusinessData) : ℚ := bd.existing_debt.getD 0

/-- `requested_amount = business_data.get("loan_amount", 0)`. -/
def requestedOf (bd : BusinessData) : ℚ := bd.loan_amount.getD 0

/-- `credit_score = business_data.get("credit_score_numeric", 750)`. -/
def creditOf (bd : BusinessData) : ℚ := bd.credit_score_numeric.getD 750

/-- The engine's `dti_ratio` local (before output rounding). -/
def dtiOf (bd : BusinessData) : ℚ :=
  if turnoverOf bd > 0 then debtOf bd / turnoverOf bd else 1

/-- The engine's `max_eligible` local. -/
def maxEligibleOf (bd : BusinessData) : ℚ := turnoverOf bd * 0.3

/-! ### Formulas written from the spec's words, for comparison with the
engine (refinement-style claims C1, C2, C8, C9). -/

/-- Written from the spec: `monthlyRevenue = annualTurnover / 12`,
`monthlyObligation = existingDebt / 36`, DTI is their quotient when
`monthlyRevenue > 0`, else `1.0`. -/
def spec_monthly_dti (annualTurnover existingDebt : ℚ) : ℚ :=
  let monthlyRevenue := annualTurnover / 12
  let monthlyObligation := existingDebt / 36
  if monthlyRevenue > 0 then monthlyObligation / monthlyRevenue else 1

/-- The DTI formula the engine actually uses: obligations over revenue
taken on the same (annual) period, guarded on `annualTurnover > 0`. -/
def spec_direct_dti (annualTurnover existingDebt : ℚ) : ℚ :=
  if annualTurnover > 0 then existingDebt / annualTurnover else 1

/-- Written from the spec: collateral-aware, capped maximum eligible
amount (`min(0.5·turnover, 50M)` with collateral, `min(0.3·turnover,
7.5M)` without). -/
def spec_max_eligible (annualTurnover : ℚ) (collateral : Bool) : ℚ :=
  if collateral then min (annualTurnover * 0.5) 50000000
  else min (annualTurnover * 0.3) 7500000

/-- Written from the spec: the risk/probability banding on the numeric
credit score alone (≥750 → LOW/0.90, ≥650 → LOW-MEDIUM/0.75,
≥550 → MEDIUM/0.60, else HIGH/0.30). -/
def spec_risk_band (creditScoreNumeric : ℚ) : RiskRating × ℚ :=
  if creditScoreNumeric ≥ 750 then (RiskRating.LOW, 0.9)
  else if creditScoreNumeric ≥ 650 then (RiskRating.LOWMEDIUM, 0.75)
  else if creditScoreNumeric ≥ 550 then (RiskRating.MEDIUM, 0.6)
  else (RiskRating.HIGH, 0.3)

/-- Written from the spec: the normalizer's grade-to-number table
(CMR-1..CMR-5 ↦ 850,750,650,550,450), with a missing grade defaulted to
`CMR-2` and an unknown grade falling back to the mapped value 750. -/
def spec_grade_value (grade : Option String) : ℚ :=
  match grade with
  | none => 750
  | some s =>
    if s = "CMR-1" then 850
    else if s = "CMR-2" then 750
    else if s = "CMR-3" then 650
    else if s = "CMR-4" then 550
    else if s = "CMR-5" then 450
    else 750

lemma decision_eq (bd : BusinessData) :
    (calculate_eligibility bd).decision =
      if dtiOf bd > 0.4 then Decision.DECLINED
      else if requestedOf bd > maxEligibleOf bd then Decision.CONDITIONAL
      else if creditOf bd < 550 then Decision.DECLINED
      else Decision.APPROVED := rfl

lemma reason_eq (bd : BusinessData) :
    (calculate_eligibility bd).reason =
      if dtiOf bd > 0.4 then Reason.DtiTooHigh
      else if requestedOf bd > maxEligibleOf bd then
        Reason.ExceedsMaxEligible (maxEligibleOf bd)
      else if creditOf bd < 550 then Reason.CreditScoreTooLow
      else Reason.AllCriteriaMet := rfl

lemma approved_amount_eq (bd : BusinessData) :
    (calculate_eligibility bd).approved_amount =
      if (calculate_eligibility bd).decision ≠ Decision.DECLINED then
        min (requestedOf bd) (maxEligibleOf bd)
      else 0 := rfl

lemma max_eligible_eq (bd : BusinessData) :
    (calculate_eligibility bd).max_eligible = maxEligibleOf bd := rfl

lemma risk_rating_eq (bd : BusinessData) :
    (calculate_eligibility bd).risk_rating =
      if creditOf bd ≥ 750 then RiskRating.LOW
      else if creditOf bd ≥ 650 then RiskRating.LOWMEDIUM
      else if creditOf bd ≥ 550 then RiskRating.MEDIUM
      else RiskRating.HIGH := rfl

lemma approval_probability_eq (bd : BusinessData) :
    (calculate_eligibility bd).approval_probability =
      if creditOf bd ≥ 750 then (0.9 : ℚ)
      else if creditOf bd ≥ 650 then 0.75
      else if creditOf bd ≥ 550 then 0.6
      else 0.3 := rfl

lemma dti_ratio_eq (bd : BusinessData) :
    (calculate_eligibility bd).dti_ratio = roundTo3 (dtiOf bd) := rfl

lemma credit_score_eq (bd : BusinessData) :
    (calculate_eligibility bd).credit_score = creditOf bd := rfl

/-! ### The claims -/

/-- C1 (counterexample): at `annual_turnover = 12`, `existing_debt = 12`
the monthly revenue `12/12 = 1` is positive, the claimed monthly-based
DTI is `(12/36)/(12/12) = 1/3`, but the engine returns `1`: the code
divides annual debt by annual turnover directly, not the 36-month
obligation by the monthly revenue. -/
theorem C1_counterexample :
    (12 : ℚ) / 12 > 0 ∧
    (calculate_eligibility
        { annual_turnover := some 12, existing_debt := some 12 }).dti_ratio ≠
      spec_monthly_dti 12 12 := by
  constructor
  · norm_num
  · norm_num [calculate_eligibility, spec_monthly_dti, roundTo3, round_eq]

/-- C1 (amended): for every `business_data` input, the returned DTI
ratio is `existingDebt / annualTurnover` (annual obligations over annual
revenue, three times the claimed monthly-based value) whenever
`annualTurnover > 0`, and `1.0` otherwise, rounded to three decimals on
output. -/
theorem C1_amended_dti (bd : BusinessData) :
    (calculate_eligibility bd).dti_ratio =
      roundTo3 (spec_direct_dti (bd.annual_turnover.getD 0) (bd.existing_debt.getD 0)) := rfl

/-- C2 (counterexample): at `annual_turnover = 200,000,000` with
collateral available the claimed cap gives `min(0.5·T, 50M) = 50M`, but
the engine computes `0.3·T = 60M`: there is no collateral branch and no
cap. -/
theorem C2_counterexample :
    (200000000 : ℚ) > 0 ∧
    (calculate_eligibility
        { annual_turnover := some 200000000,
          collateral_available := some true }).max_eligible ≠
      spec_max_eligible 200000000 true := by
  constructor
  · norm_num
  · norm_num [calculate_eligibility, spec_max_eligible, min_def]

/-- C2 (amended): for every input with `annualTurnover > 0`, the max
eligible amount is `0.3 · annualTurnover`, independent of the collateral
field and with no cap. -/
theorem C2_amended_max_eligible (bd : BusinessData) (c : Option Bool)
    (_h : 0 < turnoverOf bd) :
    (calculate_eligibility
        { bd with collateral_available := c }).max_eligible =
      turnoverOf bd * 0.3 := rfl

/-- C2 (amended, witness): the amended statement instantiated at
`annual_turnover = 12` with collateral claimed. -/
theorem C2_amended_witness :
    (calculate_eligibility
        { annual_turnover := some 12, collateral_available := some true }).max_eligible =
      turnoverOf { annual_turnover := some 12 } * 0.3 :=
  C2_amended_max_eligible { annual_turnover := some 12 } (some true)
    (by norm_num [turnoverOf])

/-- C3 (counterexample): an input with `filing_compliance_score = 0`
(below 0.6), turnover 100, no debt, requested 10 and credit score 750 is
APPROVED: the engine never reads the filing-compliance field, so a
non-DECLINED decision does not require `filingComplianceScore ≥ 0.6`. -/
theorem C3_counterexample :
    (BusinessData.filing_compliance_score
        { annual_turnover := some 100, existing_debt := some 0,
          loan_amount := some 10, credit_score_numeric := some 750,
          filing_compliance_score := some 0 }) = some 0 ∧
    (0 : ℚ) < 0.6 ∧
    (calculate_eligibility
        { annual_turnover := some 100, existing_debt := some 0,
          loan_amount := some 10, credit_score_numeric := some 750,
          filing_compliance_score := some 0 }).decision = Decision.APPROVED := by
  refine ⟨rfl, by norm_num, ?_⟩
  norm_num [decision_eq, dtiOf, turnoverOf, debtOf, requestedOf, creditOf, maxEligibleOf]

/-- C3 (amended): a non-DECLINED decision (APPROVED or CONDITIONAL) is
produced only if the DTI ratio is at most 0.4 and either
`creditScoreNumeric ≥ 550` or the requested amount exceeds the max
eligible amount; the filing-compliance score is never consulted. -/
theorem C3_amended_gate (bd : BusinessData)
    (h : (calculate_eligibility bd).decision ≠ Decision.DECLINED) :
    dtiOf bd ≤ 0.4 ∧ (creditOf bd ≥ 550 ∨ requestedOf bd > maxEligibleOf bd) := by
  rw [decision_eq] at h
  split_ifs at h with h1 h2 h3
  · exact absurd rfl h
  · exact ⟨le_of_not_lt h1, Or.inr h2⟩
  · exact absurd rfl h
  · exact ⟨le_of_not_lt h1, Or.inl (le_of_not_lt h3)⟩

/-- C3 (amended, witness): the amended gate property instantiated at the
approved input of the counterexample. -/
theorem C3_amended_witness :
    dtiOf { annual_turnover := some 100, existing_debt := some 0,
            loan_amount := some 10, credit_score_numeric := some 750,
            filing_compliance_score := some 0 } ≤ 0.4 ∧
    (creditOf { annual_turnover := some 100, existing_debt := some 0,
                loan_amount := some 10, credit_score_numeric := some 750,
                filing_compliance_score := some 0 } ≥ 550 ∨
      requestedOf { annual_turnover := some 100, existing_debt := some 0,
                    loan_amount := some 10, credit_score_numeric := some 750,
                    filing_compliance_score := some 0 } >
        maxEligibleOf { annual_turnover := some 100, existing_debt := some 0,
                        loan_amount := some 10, credit_score_numeric := some 750,
                        filing_compliance_score := some 0 }) :=
  C3_amended_gate _
    (by norm_num [decision_eq, dtiOf, turnoverOf, debtOf, requestedOf, creditOf,
      maxEligibleOf]; decide)

/-- C4: for every input in the data-model domain (non-negative
`annualTurnover`), the returned `approved_amount` never exceeds the
returned `max_eligible`, and it is 0 whenever the decision is
DECLINED. -/
theorem C4_approved_amount_bounds (bd : BusinessData)
    (h : 0 ≤ turnoverOf bd) :
    (calculate_eligibility bd).approved_amount ≤ (calculate_eligibility bd).max_eligible ∧
    ((calculate_eligibility bd).decision = Decision.DECLINED →
      (calculate_eligibility bd).approved_amount = 0) := by
  have hmax : (0 : ℚ) ≤ maxEligibleOf bd := by
    unfold maxEligibleOf; positivity
  rw [approved_amount_eq, max_eligible_eq]
  constructor
  · split_ifs with hd
    · exact min_le_right _ _
    · exact hmax
  · intro hdec
    split_ifs with hd
    · exact absurd hdec hd
    · rfl

/-- C4 (witness): the bounds instantiated at a declined concrete input
(turnover 100, debt 100 gives DTI 1 > 0.4). -/
theorem C4_witness :
    (calculate_eligibility
        { annual_turnover := some 100, existing_debt := some 100 }).approved_amount ≤
      (calculate_eligibility
        { annual_turnover := some 100, existing_debt := some 100 }).max_eligible ∧
    ((calculate_eligibility
        { annual_turnover := some 100, existing_debt := some 100 }).decision =
        Decision.DECLINED →
      (calculate_eligibility
        { annual_turnover := some 100, existing_debt := some 100 }).approved_amount = 0) :=
  C4_approved_amount_bounds _ (by norm_num [turnoverOf])

/-- C5 (counterexample): turnover 100, debt 100, credit score 800 is
DECLINED (DTI 1 > 0.4) yet its risk rating is LOW, not HIGH: the risk
rating comes from the credit-score banding alone and is not forced to
HIGH on the decline path. -/
theorem C5_counterexample :
    (calculate_eligibility
        { annual_turnover := some 100, existing_debt := some 100,
          credit_score_numeric := some 800 }).decision = Decision.DECLINED ∧
    (calculate_eligibility
        { annual_turnover := some 100, existing_debt := some 100,
          credit_score_numeric := some 800 }).risk_rating ≠ RiskRating.HIGH := by
  constructor
  · norm_num [decision_eq, dtiOf, turnoverOf, debtOf, requestedOf, creditOf,
      maxEligibleOf]
  · norm_num [risk_rating_eq, creditOf]
    decide

/-- C5 (amended): every declined input has `approved_amount = 0`; the
decline reason respects the precedence DTI-check first (any DTI above
0.4 declines with the DTI reason), and otherwise the decline is the
credit-score reason, reached only when the requested amount is within
the max eligible amount and the credit score is below 550; the risk
rating is the credit-score band (HIGH exactly when the score is below
550), not forced to HIGH by the decline. -/
theorem C5_amended_decline (bd : BusinessData)
    (h : (calculate_eligibility bd).decision = Decision.DECLINED) :
    (calculate_eligibility bd).approved_amount = 0 ∧
    ((calculate_eligibility bd).reason = Reason.DtiTooHigh ∨
      ((calculate_eligibility bd).reason = Reason.CreditScoreTooLow ∧
        dtiOf bd ≤ 0.4 ∧ requestedOf bd ≤ maxEligibleOf bd ∧ creditOf bd < 550)) ∧
    (dtiOf bd > 0.4 → (calculate_eligibility bd).reason = Reason.DtiTooHigh) ∧
    (calculate_eligibility bd).risk_rating =
      (if creditOf bd ≥ 750 then RiskRating.LOW
       else if creditOf bd ≥ 650 then RiskRating.LOWMEDIUM
       else if creditOf bd ≥ 550 then RiskRating.MEDIUM
       else RiskRating.HIGH) := by
  refine ⟨?_, ?_, ?_, risk_rating_eq bd⟩
  · rw [approved_amount_eq]
    split_ifs with hd
    · exact absurd h hd
    · rfl
  · rw [decision_eq] at h
    rw [reason_eq]
    by_cases h1 : dtiOf bd > 0.4
    · rw [if_pos h1]
      exact Or.inl rfl
    · rw [if_neg h1] at h ⊢
      by_cases h2 : requestedOf bd > maxEligibleOf bd
      · rw [if_pos h2] at h
        exact absurd h (by decide)
      · rw [if_neg h2] at h ⊢
        by_cases h3 : creditOf bd < 550
        · rw [if_pos h3]
          exact Or.inr ⟨rfl, le_of_not_lt h1, le_of_not_lt h2, h3⟩
        · rw [if_neg h3] at h
          exact absurd h (by decide)
  · intro h1
    rw [reason_eq, if_pos h1]

/-- C5 (amended, witness): the decline description instantiated at the
declined input of the counterexample (credit 800, so band LOW). -/
theorem C5_amended_witness :
    (calculate_eligibility
        { annual_turnover := some 100, existing_debt := some 100,
          credit_score_numeric := some 800 }).approved_amount = 0 ∧
    ((calculate_eligibility
        { annual_turnover := some 100, existing_debt := some 100,
          credit_score_numeric := some 800 }).reason = Reason.DtiTooHigh ∨
      ((calculate_eligibility
          { annual_turnover := some 100, existing_debt := some 100,
            credit_score_numeric := some 800 }).reason = Reason.CreditScoreTooLow ∧
        dtiOf { annual_turnover := some 100, existing_debt := some 100,
                credit_score_numeric := some 800 } ≤ 0.4 ∧
        requestedOf { annual_turnover := some 100, existing_debt := some 100,
                      credit_score_numeric := some 800 } ≤
          maxEligibleOf { annual_turnover := some 100, existing_debt := some 100,
                          credit_score_numeric := some 800 } ∧
        creditOf { annual_turnover := some 100, existing_debt := some 100,
                   credit_score_numeric := some 800 } < 550)) ∧
    (dtiOf { annual_turnover := some 100, existing_debt := some 100,
             credit_score_numeric := some 800 } > 0.4 →
      (calculate_eligibility
          { annual_turnover := some 100, existing_debt := some 100,
            credit_score_numeric := some 800 }).reason = Reason.DtiTooHigh) ∧
    (calculate_eligibility
        { annual_turnover := some 100, existing_debt := some 100,
          credit_score_numeric := some 800 }).risk_rating =
      (if creditOf { annual_turnover := some 100, existing_debt := some 100,
                     credit_score_numeric := some 800 } ≥ 750 then RiskRating.LOW
       else if creditOf { annual_turnover := some 100, existing_debt := some 100,
                          credit_score_numeric := some 800 } ≥ 650 then
         RiskRating.LOWMEDIUM
       else if creditOf { annual_turnover := some 100, existing_debt := some 100,
                          credit_score_numeric := some 800 } ≥ 550 then
         RiskRating.MEDIUM
       else RiskRating.HIGH) :=
  C5_amended_decline _
    (by norm_num [decision_eq, dtiOf, turnoverOf, debtOf, requestedOf, creditOf,
      maxEligibleOf])

/-- C6: when the (defaulted) annual turnover is 0 the guard takes the
division-free branch, the returned `dti_ratio` is `1.0`, and the
decision is never APPROVED (it is DECLINED, since `1 > 0.4`). -/
theorem C6_zero_turnover (bd : BusinessData)
    (h : bd.annual_turnover.getD 0 = 0) :
    (calculate_eligibility bd).dti_ratio = 1 ∧
    (calculate_eligibility bd).decision ≠ Decision.APPROVED := by
  have ht : turnoverOf bd = 0 := h
  have hdti : dtiOf bd = 1 := by
    unfold dtiOf
    rw [ht]
    norm_num
  constructor
  · rw [dti_ratio_eq, hdti]
    norm_num [roundTo3, round_eq]
  · rw [decision_eq, hdti]
    norm_num
    decide

/-- C6 (witness): the zero-turnover property at an input whose
`annual_turnover` key is absent (defaulted to 0) and with debt 5. -/
theorem C6_witness :
    (calculate_eligibility { existing_debt := some 5 }).dti_ratio = 1 ∧
    (calculate_eligibility { existing_debt := some 5 }).decision ≠
      Decision.APPROVED :=
  C6_zero_turnover { existing_debt := some 5 } rfl

/-- C7: holding every other field fixed, raising the credit score from
below 650 to at least 750 never moves an APPROVED decision to DECLINED
(the decision depends on the score only through the `< 550` check). -/
theorem C7_credit_monotone (bd : BusinessData) (c1 c2 : ℚ)
    (_hc1 : c1 < 650) (hc2 : 750 ≤ c2)
    (h : (calculate_eligibility
        { bd with credit_score_numeric := some c1 }).decision = Decision.APPROVED) :
    (calculate_eligibility
        { bd with credit_score_numeric := some c2 }).decision ≠ Decision.DECLINED := by
  rw [decision_eq] at h ⊢
  have e1 : dtiOf { bd with credit_score_numeric := some c2 } =
      dtiOf { bd with credit_score_numeric := some c1 } := rfl
  have e2 : requestedOf { bd with credit_score_numeric := some c2 } =
      requestedOf { bd with credit_score_numeric := some c1 } := rfl
  have e3 : maxEligibleOf { bd with credit_score_numeric := some c2 } =
      maxEligibleOf { bd with credit_score_numeric := some c1 } := rfl
  have e4 : creditOf { bd with credit_score_numeric := some c2 } = c2 := rfl
  rw [e1, e2, e3, e4]
  by_cases h1 : dtiOf { bd with credit_score_numeric := some c1 } > 0.4
  · rw [if_pos h1] at h
    exact absurd h (by decide)
  · rw [if_neg h1] at h ⊢
    by_cases h2 : requestedOf { bd with credit_score_numeric := some c1 } >
        maxEligibleOf { bd with credit_score_numeric := some c1 }
    · rw [if_pos h2] at h
      exact absurd h (by decide)
    · rw [if_neg h2] at h ⊢
      have h3 : ¬ c2 < 550 := not_lt.mpr (by linarith)
      rw [if_neg h3]
      decide

/-- C7 (witness): turnover 100, debt 0, requested 10; the decision at
credit 600 is APPROVED and at credit 750 it is not DECLINED. -/
theorem C7_witness :
    (calculate_eligibility
        { annual_turnover := some 100, existing_debt := some 0,
          loan_amount := some 10,
          credit_score_numeric := some 750 }).decision ≠ Decision.DECLINED :=
  C7_credit_monotone
    { annual_turnover := some 100, existing_debt := some 0, loan_amount := some 10 }
    600 750 (by norm_num) (by norm_num)
    (by norm_num [decision_eq, dtiOf, turnoverOf, debtOf, requestedOf, creditOf,
      maxEligibleOf])

/-- C8: the returned risk rating and approval probability are exactly
the credit-score banding of the spec (≥750 → LOW/0.90,
≥650 → LOW-MEDIUM/0.75, ≥550 → MEDIUM/0.60, else HIGH/0.30), a function
of the (defaulted) `credit_score_numeric` field alone, independent of
the decision gate. -/
theorem C8_risk_band_pure (bd : BusinessData) :
    ((calculate_eligibility bd).risk_rating,
      (calculate_eligibility bd).approval_probability) =
      spec_risk_band (bd.credit_score_numeric.getD 750) := by
  rw [risk_rating_eq, approval_probability_eq]
  have hc : creditOf bd = bd.credit_score_numeric.getD 750 := rfl
  rw [hc]
  unfold spec_risk_band
  split_ifs <;> rfl

/-- C9: the normalizer maps the credit grade through the fixed table
(CMR-1..CMR-5 ↦ 850,750,650,550,450, so CMR-3 ↦ 650), a missing grade is
defaulted to CMR-2 and an unknown grade falls back to 750, and the
absent numeric fields (turnover, filing compliance, existing loans)
default to 0. -/
theorem C9_normalizer_defaults (report : GstReport) :
    (parse_gst_report report).credit_score_numeric =
      spec_grade_value report.credit_score ∧
    (report.annual_turnover = none → (parse_gst_report report).annual_turnover = 0) ∧
    (report.filing_compliance = none →
      (parse_gst_report report).filing_compliance = 0) ∧
    (report.existing_loans = none → (parse_gst_report report).existing_debt = 0) := by
  refine ⟨?_, fun h => by simp [parse_gst_report, h],
    fun h => by simp [parse_gst_report, h], fun h => by simp [parse_gst_report, h]⟩
  cases hr : report.credit_score with
  | none => simp [parse_gst_report, hr, credit_score_map, spec_grade_value]
  | some s =>
      simp only [parse_gst_report, hr, Option.getD_some, spec_grade_value]
      unfold credit_score_map
      split_ifs <;> rfl

/-- C9 (witness): the normalizer at a report carrying only
`credit_score = "CMR-3"`: the numeric score is the table image of CMR-3
and the absent numeric fields come out 0. -/
theorem C9_witness :
    (parse_gst_report { credit_score := some "CMR-3" }).credit_score_numeric =
      spec_grade_value (some "CMR-3") ∧
    (parse_gst_report { credit_score := some "CMR-3" }).annual_turnover = 0 ∧
    (parse_gst_report { credit_score := some "CMR-3" }).filing_compliance = 0 ∧
    (parse_gst_report { credit_score := some "CMR-3" }).existing_debt = 0 := by
  obtain ⟨h1, h2, h3, h4⟩ := C9_normalizer_defaults { credit_score := some "CMR-3" }
  exact ⟨h1, h2 rfl, h3 rfl, h4 rfl⟩

/-- C10: the engine reads the requested amount from the `loan_amount`
key only, defaulting it to 0; an input (with non-negative defaulted
turnover, per the data model) that carries the amount only under
`requested_amount` is treated as requesting 0, is never CONDITIONAL,
and when APPROVED its approved amount is 0. -/
theorem C10_loan_amount_key (bd : BusinessData) (x : ℚ)
    (_hreq : bd.requested_amount = some x) (hloan : bd.loan_amount = none)
    (h : 0 ≤ turnoverOf bd) :
    requestedOf bd = 0 ∧
    (calculate_eligibility bd).decision ≠ Decision.CONDITIONAL ∧
    ((calculate_eligibility bd).decision = Decision.APPROVED →
      (calculate_eligibility bd).approved_amount = 0) := by
  have hr : requestedOf bd = 0 := by
    unfold requestedOf
    rw [hloan]
    rfl
  have hmax : (0 : ℚ) ≤ maxEligibleOf bd := by
    unfold maxEligibleOf
    positivity
  have hnc : ¬ requestedOf bd > maxEligibleOf bd := by
    rw [hr]
    exact not_lt.mpr hmax
  refine ⟨hr, ?_, ?_⟩
  · rw [decision_eq]
    split_ifs <;> decide
  · intro ha
    rw [approved_amount_eq, ha, if_pos (by decide : Decision.APPROVED ≠ Decision.DECLINED),
      hr]
    exact min_eq_left hmax

/-- C10 (witness): turnover 100 with the amount 5 supplied only under
`requested_amount`. -/
theorem C10_witness :
    requestedOf { annual_turnover := some 100, requested_amount := some 5 } = 0 ∧
    (calculate_eligibility
        { annual_turnover := some 100, requested_amount := some 5 }).decision ≠
      Decision.CONDITIONAL ∧
    ((calculate_eligibility
        { annual_turnover := some 100, requested_amount := some 5 }).decision =
        Decision.APPROVED →
      (calculate_eligibility
          { annual_turnover := some 100, requested_amount := some 5 }).approved_amount = 0) :=
  C10_loan_amount_key { annual_turnover := some 100, requested_amount := some 5 } 5
    rfl rfl (by norm_num [turnoverOf])
